import Mathlib

/-!
# school-api: the credential and session-token subsystem

A shallow embedding of `src/controllers/auth.controller.js`,
`src/models/user.model.js` and the `/users` route, followed by the theorems
about them.

Conventions.
* A value that JavaScript may leave `undefined` (a header, a body field,
  `req.user`, `process.env.JWT_SECRET`) is an `Option`.
* A call that may throw returns `Except JsError _`; a handler's
  `try { ... } catch (error) { ... }` is a `match` on that result.
* `bcryptjs`, `jsonwebtoken` and the `isEmail` validator are libraries outside
  the repository: they are parameters (`Bcrypt`, `JwtLib`, `Env.isEmail`).
* Ghost state records what the claims talk about but the code does not
  return: how often `next` was called, how often `User.create` was invoked.
-/

namespace SchoolApi

/-! ## JSON bodies -/

/-- A JSON leaf value used by the handlers: a number or a string. -/
inductive Scalar where
  | num (n : Nat)
  | str (s : String)
  deriving DecidableEq, Repr

/-- A flat JSON object, as an ordered list of key/value pairs. -/
abbrev Row := List (String × Scalar)

/-- A value of a response body field. -/
inductive Field where
  | scalar (v : Scalar)
  | object (r : Row)
  | rows (rs : List Row)
  deriving DecidableEq, Repr

/-- A response body: a JSON object. -/
abbrev Body := List (String × Field)

/-- What `res.status(s).json(b)` writes. -/
structure Response where
  status : Nat
  body : Body
  deriving DecidableEq, Repr

/-- The keys of a body. -/
def Body.keys (b : Body) : List String := b.map Prod.fst

/-- The keys of a flat object. -/
def Row.keys (r : Row) : List String := r.map Prod.fst

/-- A thrown JavaScript `Error`; only its `message` is observable here. -/
structure JsError where
  message : String
  deriving DecidableEq, Repr

/-! ## The libraries, as parameters -/

/-- The decoded payload `jwt.verify` hands to its callback: the signed
payload `{ id }` plus the `iat` and `exp` stamps. -/
structure JwtPayload where
  id : Nat
  iat : Nat
  exp : Nat
  deriving DecidableEq, Repr

/-- The `jsonwebtoken` library. `sign payloadId secret expiresIn now` and
`verify token secret now`; the secret is `process.env.JWT_SECRET`, possibly
undefined. `verify` is used with a callback, so a rejection is a value. -/
structure JwtLib where
  sign : Nat → Option String → String → Nat → Except JsError String
  verify : String → Option String → Nat → Except JsError JwtPayload

/-- The `bcryptjs` library: `genSalt rounds entropy`, `hash plaintext salt`
and `compare candidate hash`, whose candidate is a body field that may be
undefined and whose promise may reject. -/
structure Bcrypt where
  genSalt : Nat → Nat → String
  hash : String → String → String
  compare : Option String → String → Except JsError Bool

/-- The process environment and the libraries a request runs against:
`now` is the clock in seconds, `entropy` feeds `genSalt`, and `dbFault` is
the storage failure, if any, with which every query of this run rejects. -/
structure Env where
  bcrypt : Bcrypt
  jwt : JwtLib
  isEmail : String → Bool
  JWT_SECRET : Option String
  now : Nat
  entropy : Nat
  dbFault : Option String

/-! ## `String.prototype.split` -/

/-- Splitting a character list at every occurrence of `sep`, keeping empty
pieces: the list-level content of `s.split(sep)`. -/
def splitChars (sep : Char) : List Char → List (List Char)
  | [] => [[]]
  | c :: cs =>
    if c = sep then [] :: splitChars sep cs
    else
      match splitChars sep cs with
      | [] => [[c]]
      | p :: ps => (c :: p) :: ps

/-- JavaScript `s.split(sep)` for a one-character separator. -/
def split (s : String) (sep : Char) : List String :=
  (splitChars sep s.toList).map String.mk

/-! ## The authentication middleware -/

/-- What a run of a middleware leaves behind: the response it wrote (if
any), how many times it called `next`, and `req.user` afterwards. -/
structure MwResult where
  response : Option Response
  nextCalls : Nat
  user : Option JwtPayload
  deriving DecidableEq, Repr

/-- The expression `authHeader && authHeader.split(' ')[1]`: `undefined`
(here `none`) for an absent header, the empty header itself when the header
is `""`, otherwise the second piece of the split if there is one. -/
def extractToken (authHeader : Option String) : Option String :=
  match authHeader with
  | none => none
  | some h => if h = "" then some h else (split h ' ')[1]?

/-- The `authenticateToken` middleware of auth.controller.js. -/
def authenticateToken (env : Env) (authHeader : Option String) : MwResult :=
  match extractToken authHeader with
  | none =>
    { response := some ⟨401, [("message", .scalar (.str "Not authorized, no token"))]⟩,
      nextCalls := 0, user := none }
  | some token =>
    match env.jwt.verify token env.JWT_SECRET env.now with
    | .error _ =>
      { response := some ⟨403, [("message", .scalar (.str "Forbidden, invalid or expired token"))]⟩,
        nextCalls := 0, user := none }
    | .ok user => { response := none, nextCalls := 1, user := some user }

/-! ## The `User` model -/

/-- A row of the `Users` table: the generated `id` and the three columns
declared in user.model.js. -/
structure UserRecord where
  id : Nat
  email : String
  name : String
  password : String
  deriving DecidableEq, Repr

/-- The table, the next auto-increment id, and a ghost counter of the
`User.create` invocations so far. -/
structure Store where
  users : List UserRecord
  nextId : Nat
  createCalls : Nat
  deriving DecidableEq, Repr

/-- The object `{ name, email, password }` destructured from `req.body`. -/
structure Credentials where
  name : Option String
  email : Option String
  password : Option String
  deriving DecidableEq, Repr

/-- `User.findOne({ where: { email } })`: an undefined `email` is refused
when the query is built, a storage failure rejects, otherwise the first row
with exactly that email (or `null`). -/
def User.findOne (env : Env) (store : Store) (email : Option String) :
    Except JsError (Option UserRecord) :=
  match email with
  | none => .error ⟨"WHERE parameter \"email\" has invalid \"undefined\" value"⟩
  | some e =>
    match env.dbFault with
    | some m => .error ⟨m⟩
    | none => .ok (store.users.find? (fun u => u.email = e))

/-- The validation errors of a new row, in the order Sequelize reports
them: `allowNull: false` on email, name and password, then
`validate: { isEmail: true }` on an email that is present. -/
def validationErrors (env : Env) (v : Credentials) : List String :=
  (if v.email.isNone then ["notNull Violation: User.email cannot be null"] else []) ++
  (if v.name.isNone then ["notNull Violation: User.name cannot be null"] else []) ++
  (if v.password.isNone then ["notNull Violation: User.password cannot be null"] else []) ++
  (match v.email with
   | some e =>
     if env.isEmail e then [] else ["Validation error: Validation isEmail on email failed"]
   | none => [])

/-- The `User.beforeCreate` hook, on the password field it rewrites:
`if (user.password)` skips the empty string. -/
def beforeCreate (env : Env) (password : String) : String :=
  if password ≠ "" then
    let salt := env.bcrypt.genSalt 10 env.entropy
    env.bcrypt.hash password salt
  else password

/-- The `User.beforeUpdate` hook, on the password field it rewrites: it
hashes whenever `user.changed("password")`, with no test of the value. -/
def beforeUpdate (env : Env) (passwordChanged : Bool) (password : String) : String :=
  if passwordChanged then
    let salt := env.bcrypt.genSalt 10 env.entropy
    env.bcrypt.hash password salt
  else password

/-- `User.create({ name, email, password })`: validation, then the
`beforeCreate` hook, then the insert under the `unique: true` constraint on
email. Returns the created row or the thrown error, and the store after. -/
def User.create (env : Env) (store : Store) (v : Credentials) :
    Except JsError UserRecord × Store :=
  let called := { store with createCalls := store.createCalls + 1 }
  match v.email, v.name, v.password, validationErrors env v with
  | some email, some name, some password, [] =>
    let hashed := beforeCreate env password
    match env.dbFault with
    | some m => (.error ⟨m⟩, called)
    | none =>
      if store.users.any (fun u => u.email = email) then
        (.error ⟨"Validation error"⟩, called)
      else
        let user : UserRecord :=
          { id := store.nextId, email := email, name := name, password := hashed }
        (.ok user,
          { called with users := store.users ++ [user], nextId := store.nextId + 1 })
  | _, _, _, errs => (.error ⟨",\n".intercalate errs⟩, called)

/-- The value of a column of a row, by column name. -/
def UserRecord.get (u : UserRecord) (attr : String) : Option Scalar :=
  if attr = "id" then some (.num u.id)
  else if attr = "email" then some (.str u.email)
  else if attr = "name" then some (.str u.name)
  else if attr = "password" then some (.str u.password)
  else none

/-- `User.findAll({ attributes })`, serialised: every row, restricted to the
listed columns in the listed order. -/
def User.findAll (env : Env) (store : Store) (attributes : List String) :
    Except JsError (List Row) :=
  match env.dbFault with
  | some m => .error ⟨m⟩
  | none =>
    .ok (store.users.map fun u =>
      attributes.filterMap fun a => (u.get a).map fun v => (a, v))

/-! ## The handlers of auth.controller.js -/

/-- The `try` block of `register`. -/
def registerTry (env : Env) (store : Store) (body : Credentials) :
    Except JsError Response × Store :=
  match User.findOne env store body.email with
  | .error e => (.error e, store)
  | .ok (some _) =>
    (.ok ⟨400, [("message", .scalar (.str "User already exists"))]⟩, store)
  | .ok none =>
    match User.create env store ⟨body.name, body.email, body.password⟩ with
    | (.error e, after) => (.error e, after)
    | (.ok user, after) =>
      (.ok ⟨201, [("message", .scalar (.str "User registered successfully")),
                  ("user", .object [("id", .num user.id), ("name", .str user.name),
                                    ("email", .str user.email)])]⟩, after)

/-- The `register` handler: the response written and the store afterwards. -/
def register (env : Env) (store : Store) (body : Credentials) : Response × Store :=
  match registerTry env store body with
  | (.ok res, after) => (res, after)
  | (.error error, after) =>
    (⟨500, [("message", .scalar (.str "Server error during registration")),
            ("error", .scalar (.str error.message))]⟩, after)

/-- The `try` block of `login`; `body.name` is not read. -/
def loginTry (env : Env) (store : Store) (body : Credentials) : Except JsError Response :=
  match User.findOne env store body.email with
  | .error e => .error e
  | .ok none => .ok ⟨400, [("message", .scalar (.str "Invalid credentials"))]⟩
  | .ok (some user) =>
    match env.bcrypt.compare body.password user.password with
    | .error e => .error e
    | .ok false => .ok ⟨400, [("message", .scalar (.str "Invalid credentials"))]⟩
    | .ok true =>
      match env.jwt.sign user.id env.JWT_SECRET "1h" env.now with
      | .error e => .error e
      | .ok token =>
        .ok ⟨200, [("message", .scalar (.str "Logged in successfully")),
                   ("token", .scalar (.str token))]⟩

/-- The `login` handler. -/
def login (env : Env) (store : Store) (body : Credentials) : Response :=
  match loginTry env store body with
  | .ok res => res
  | .error error =>
    ⟨500, [("message", .scalar (.str "Server error during login")),
           ("error", .scalar (.str error.message))]⟩

/-- The `try` block of `getUsers`; reading `req.user.id` throws a
`TypeError` when `req.user` is undefined. -/
def getUsersTry (env : Env) (store : Store) (user : Option JwtPayload) :
    Except JsError Response :=
  match user with
  | none => .error ⟨"Cannot read properties of undefined (reading \x27id\x27)"⟩
  | some _ =>
    match User.findAll env store ["id", "name", "email"] with
    | .error e => .error e
    | .ok users => .ok ⟨200, [("users", .rows users)]⟩

/-- The `getUsers` handler. -/
def getUsers (env : Env) (store : Store) (user : Option JwtPayload) : Response :=
  match getUsersTry env store user with
  | .ok res => res
  | .error error =>
    ⟨500, [("message", .scalar (.str "Server error fetching users")),
           ("error", .scalar (.str error.message))]⟩

/-- The route `router.get(\x27/users\x27, authenticateToken, getUsers)`: the
response, and whether `getUsers` was reached. -/
def usersRoute (env : Env) (store : Store) (authHeader : Option String) :
    Option Response × Bool :=
  let mw := authenticateToken env authHeader
  match mw.nextCalls with
  | 0 => (mw.response, false)
  | _ + 1 => (some (getUsers env store mw.user), true)

/-! ## The contracts assumed of the libraries -/

/-- The contract of `jsonwebtoken` used below: a token signed with
`expiresIn: "1h"` at time `iat` contains no space, and `verify` under the same
secret at any time from `iat` up to (not including) `iat + 3600` returns a
payload carrying the signed id. -/
def JwtLib.Sound (J : JwtLib) : Prop :=
  ∀ (id : Nat) (secret : Option String) (iat : Nat) (tok : String),
    J.sign id secret "1h" iat = .ok tok →
      ' ' ∉ tok.toList ∧
      ∀ t, iat ≤ t → t < iat + 3600 →
        ∃ p, J.verify tok secret t = .ok p ∧ p.id = id

/-- The idealisation of `bcrypt.hash` used below: a hash is never its own
plaintext. -/
def Bcrypt.NoFixedPoint (B : Bcrypt) : Prop :=
  ∀ plaintext salt : String, B.hash plaintext salt ≠ plaintext

/-! ## A concrete environment for the examples -/

/-- A table-driven stand-in for `jsonwebtoken`: it signs exactly one payload
and accepts exactly that token until its expiry. -/
def fixtureJwt : JwtLib where
  sign id secret span now :=
    if id = 1 ∧ secret = some "s3cret" ∧ span = "1h" ∧ now = 1000 then .ok "h.p1.sig"
    else .error ⟨"secretOrPrivateKey must have a value"⟩
  verify tok secret t :=
    if tok = "h.p1.sig" ∧ secret = some "s3cret" ∧ t < 4600 then .ok ⟨1, 1000, 4600⟩
    else .error ⟨"jwt malformed"⟩

/-- A stand-in for `bcryptjs`: the "hash" is the salt followed by the
plaintext behind a marker, `compare` recomputes it with the fixed salt. -/
def fixtureBcrypt : Bcrypt where
  genSalt _ _ := "$2a$10$salt"
  hash plaintext salt := "$" ++ salt ++ plaintext
  compare candidate hash :=
    match candidate with
    | none => .error ⟨"Illegal arguments: undefined, string"⟩
    | some s => .ok (decide (hash = "$$2a$10$salt" ++ s))

/-- An environment over the stand-in libraries, with a reachable database. -/
def fixtureEnv : Env where
  bcrypt := fixtureBcrypt
  jwt := fixtureJwt
  isEmail s := decide ('@' ∈ s.toList)
  JWT_SECRET := some "s3cret"
  now := 1000
  entropy := 0
  dbFault := none

/-- The same environment with the database rejecting every query with `m`. -/
def faultyEnv (m : String) : Env := { fixtureEnv with dbFault := some m }

/-- An empty table. -/
def emptyStore : Store := { users := [], nextId := 1, createCalls := 0 }

/-- A table holding one user, as `register` on `emptyStore` leaves it. -/
def annStore : Store :=
  { users := [{ id := 1, email := "ann@x.com", name := "Ann", password := "$$2a$10$saltpw" }],
    nextId := 2, createCalls := 1 }

/-- What may follow the token in a header: nothing, or a space and further
text. -/
def afterToken : Option String → String
  | none => ""
  | some r => " " ++ r

/-! ## Lemmas on `split` -/

theorem splitChars_ne_nil (sep : Char) (l : List Char) : splitChars sep l ≠ [] := by
  induction l with
  | nil => simp [splitChars]
  | cons c cs ih =>
    unfold splitChars
    split
    · simp
    · split <;> simp

theorem splitChars_of_not_mem (sep : Char) (l : List Char) (h : sep ∉ l) :
    splitChars sep l = [l] := by
  induction l with
  | nil => simp [splitChars]
  | cons c cs ih =>
    have hc : c ≠ sep := fun e => h (by simp [e])
    have hcs : sep ∉ cs := fun m => h (List.mem_cons_of_mem _ m)
    simp [splitChars, hc, ih hcs]

theorem splitChars_append_sep (sep : Char) (a b : List Char) (h : sep ∉ a) :
    splitChars sep (a ++ sep :: b) = a :: splitChars sep b := by
  induction a with
  | nil => simp [splitChars]
  | cons c cs ih =>
    have hc : c ≠ sep := fun e => h (by simp [e])
    have hcs : sep ∉ cs := fun m => h (List.mem_cons_of_mem _ m)
    simp [splitChars, hc, ih hcs]

/-- The header `scheme token` followed by nothing (`none`) or by a space and
further text (`some r`). -/
theorem split_scheme_token (scheme t : String) (more : Option String)
    (hs : ' ' ∉ scheme.toList) (ht : ' ' ∉ t.toList) :
    (split (scheme ++ " " ++ t ++ afterToken more) ' ')[1]? = some t := by
  have hs2 : ' ' ∉ scheme.data := hs
  have ht2 : ' ' ∉ t.data := ht
  cases more with
  | none =>
    have e : (scheme ++ " " ++ t ++ afterToken none).toList
        = scheme.data ++ ' ' :: t.data := by simp [afterToken]
    simp only [split, e, splitChars_append_sep _ _ _ hs2, splitChars_of_not_mem _ _ ht2]
    simp
  | some r =>
    have e : (scheme ++ " " ++ t ++ afterToken (some r)).toList
        = scheme.data ++ ' ' :: (t.data ++ ' ' :: r.data) := by simp [afterToken]
    simp only [split, e, splitChars_append_sep _ _ _ hs2, splitChars_append_sep _ _ _ ht2]
    simp

/-! ## Theorems -/

/-- C1: a request without an Authorization header gets status 401 from
`authenticateToken`, which neither calls `next` nor sets `req.user`, so that
on the `/users` route `getUsers` is not reached and the 401 is the response. -/
theorem authenticateToken_no_header (env : Env) (store : Store) :
    authenticateToken env none =
      { response := some ⟨401, [("message", .scalar (.str "Not authorized, no token"))]⟩,
        nextCalls := 0, user := none } ∧
    usersRoute env store none =
      (some ⟨401, [("message", .scalar (.str "Not authorized, no token"))]⟩, false) := by
  constructor <;> rfl

/-- C2: when the Authorization header carries a token and `jwt.verify`
rejects it under the configured secret, `authenticateToken` answers 403 (a
value, not a thrown error, and not 401), does not call `next`, leaves
`req.user` unset, and `getUsers` is not reached. -/
theorem authenticateToken_rejected_token (env : Env) (store : Store) (header token : String)
    (e : JsError) (htoken : extractToken (some header) = some token)
    (hverify : env.jwt.verify token env.JWT_SECRET env.now = .error e) :
    authenticateToken env (some header) =
      { response :=
          some ⟨403, [("message", .scalar (.str "Forbidden, invalid or expired token"))]⟩,
        nextCalls := 0, user := none } ∧
    (usersRoute env store (some header)).2 = false := by
  have h : authenticateToken env (some header) =
      { response :=
          some ⟨403, [("message", .scalar (.str "Forbidden, invalid or expired token"))]⟩,
        nextCalls := 0, user := none } := by
    simp [authenticateToken, htoken, hverify]
  exact ⟨h, by simp [usersRoute, h]⟩

/-- C2 at the header `Bearer garbage`, which the stand-in library rejects. -/
theorem authenticateToken_rejected_token_witness :
    extractToken (some "Bearer garbage") = some "garbage" ∧
    fixtureEnv.jwt.verify "garbage" fixtureEnv.JWT_SECRET fixtureEnv.now
      = .error ⟨"jwt malformed"⟩ ∧
    (authenticateToken fixtureEnv (some "Bearer garbage") =
      { response :=
          some ⟨403, [("message", .scalar (.str "Forbidden, invalid or expired token"))]⟩,
        nextCalls := 0, user := none } ∧
     (usersRoute fixtureEnv emptyStore (some "Bearer garbage")).2 = false) :=
  ⟨by decide, by rfl,
    authenticateToken_rejected_token fixtureEnv emptyStore "Bearer garbage" "garbage"
      ⟨"jwt malformed"⟩ (by decide) (by rfl)⟩

/-- C3 as stated fails: the header `Basic h.p1.sig` does not start with
`Bearer `, yet its second piece is a token `jwt.verify` accepts and `next` is
called; and for `Bearer a b` the token is `a`, not the text `a b` after the
prefix. -/
theorem authenticateToken_scheme_unchecked :
    ¬ ("Bearer ".toList <+: "Basic h.p1.sig".toList) ∧
    authenticateToken fixtureEnv (some "Basic h.p1.sig") =
      { response := none, nextCalls := 1, user := some ⟨1, 1000, 4600⟩ } ∧
    extractToken (some "Bearer a b") = some "a" ∧
    "Bearer a b".toList = "Bearer ".toList ++ "a b".toList := by
  decide

/-- C3, amended: the token is the second space-separated piece of the
Authorization header, whatever the first piece is. For a header
`scheme token` (neither part containing a space, optionally followed by a
space and more text) the token is exactly `token`; `next` is called exactly
when `jwt.verify` accepts that token, with `Bearer` or any other scheme; and
a non-empty header without a space yields 401 without calling `next`. -/
theorem authenticateToken_second_piece (env : Env) (scheme t : String) (more : Option String)
    (hs : ' ' ∉ scheme.toList) (ht : ' ' ∉ t.toList) :
    extractToken
        (some (scheme ++ " " ++ t ++ afterToken more))
      = some t ∧
    ((authenticateToken env
        (some (scheme ++ " " ++ t ++ afterToken more))).nextCalls
        = 1 ↔ ∃ p, env.jwt.verify t env.JWT_SECRET env.now = .ok p) ∧
    (scheme ≠ "" →
      authenticateToken env (some scheme) =
        { response := some ⟨401, [("message", .scalar (.str "Not authorized, no token"))]⟩,
          nextCalls := 0, user := none }) := by
  have hne : scheme ++ " " ++ t ++ afterToken more ≠ "" := by
    intro h
    have := congrArg String.length h
    simp at this
    exact absurd this.1.1.2 (by decide)
  have htok : extractToken
        (some (scheme ++ " " ++ t ++ afterToken more))
      = some t := by
    simp only [extractToken, if_neg hne]
    exact split_scheme_token scheme t more hs ht
  refine ⟨htok, ?_, ?_⟩
  · simp only [authenticateToken, htok]
    cases hv : env.jwt.verify t env.JWT_SECRET env.now <;> simp
  · intro hscheme
    have hs2 : ' ' ∉ scheme.data := hs
    have : extractToken (some scheme) = none := by
      simp [extractToken, hscheme, split, splitChars_of_not_mem _ _ hs2]
    simp [authenticateToken, this]

/-- C3 amended, at the header `Bearer h.p1.sig`. -/
theorem authenticateToken_second_piece_witness :
    extractToken (some ("Bearer" ++ " " ++ "h.p1.sig" ++ afterToken none)) = some "h.p1.sig" ∧
    ((authenticateToken fixtureEnv
        (some ("Bearer" ++ " " ++ "h.p1.sig" ++ afterToken none))).nextCalls = 1 ↔
        ∃ p, fixtureEnv.jwt.verify "h.p1.sig" fixtureEnv.JWT_SECRET fixtureEnv.now = .ok p) ∧
    ("Bearer" ≠ "" →
      authenticateToken fixtureEnv (some "Bearer") =
        { response := some ⟨401, [("message", .scalar (.str "Not authorized, no token"))]⟩,
          nextCalls := 0, user := none }) :=
  authenticateToken_second_piece fixtureEnv "Bearer" "h.p1.sig" none (by decide) (by decide)

/-- C4 as stated fails: for the login request `{ email: "ann@x.com" }`, which
has no password, the answer is 400 `Invalid credentials` when no user has
that email, but 500 with the message of the error `bcrypt.compare` throws
when a user has it. -/
theorem login_missing_password_distinguishes :
    login fixtureEnv emptyStore ⟨none, some "ann@x.com", none⟩
      = ⟨400, [("message", .scalar (.str "Invalid credentials"))]⟩ ∧
    login fixtureEnv annStore ⟨none, some "ann@x.com", none⟩
      = ⟨500, [("message", .scalar (.str "Server error during login")),
               ("error", .scalar (.str "Illegal arguments: undefined, string"))]⟩ ∧
    login fixtureEnv annStore ⟨none, some "ann@x.com", none⟩
      ≠ login fixtureEnv emptyStore ⟨none, some "ann@x.com", none⟩ := by
  decide

/-- C4, amended: the login response when the lookup finds no user with the
given email is 400 with body `{ message: "Invalid credentials" }` and no
token; the response when it finds one is that same response exactly when
`bcrypt.compare` resolves to false (a password was compared and does not
match), and not when the comparison throws or succeeds. -/
theorem login_invalid_credentials_identical (env₁ env₂ : Env) (store₁ store₂ : Store)
    (body₁ body₂ : Credentials) (u : UserRecord)
    (hunknown : User.findOne env₁ store₁ body₁.email = .ok none)
    (hknown : User.findOne env₂ store₂ body₂.email = .ok (some u)) :
    login env₁ store₁ body₁ = ⟨400, [("message", .scalar (.str "Invalid credentials"))]⟩ ∧
    "token" ∉ (login env₁ store₁ body₁).body.keys ∧
    (login env₂ store₂ body₂ = login env₁ store₁ body₁ ↔
      env₂.bcrypt.compare body₂.password u.password = .ok false) := by
  have h₁ : login env₁ store₁ body₁
      = ⟨400, [("message", .scalar (.str "Invalid credentials"))]⟩ := by
    simp [login, loginTry, hunknown]
  refine ⟨h₁, by rw [h₁]; decide, ?_⟩
  rw [h₁]
  cases hc : env₂.bcrypt.compare body₂.password u.password with
  | error e => simp [login, loginTry, hknown, hc]
  | ok matched =>
    cases matched with
    | false => simp [login, loginTry, hknown, hc]
    | true =>
      cases hs : env₂.jwt.sign u.id env₂.JWT_SECRET "1h" env₂.now with
      | error e => simp [login, loginTry, hknown, hc, hs]
      | ok token => simp [login, loginTry, hknown, hc, hs]

/-- C4 amended, for one request `{ email: "ann@x.com", password: "wrong" }`
against an empty table and against a table holding that email. -/
theorem login_invalid_credentials_identical_witness :
    login fixtureEnv emptyStore ⟨none, some "ann@x.com", some "wrong"⟩
      = ⟨400, [("message", .scalar (.str "Invalid credentials"))]⟩ ∧
    "token" ∉ (login fixtureEnv emptyStore ⟨none, some "ann@x.com", some "wrong"⟩).body.keys ∧
    login fixtureEnv annStore ⟨none, some "ann@x.com", some "wrong"⟩
      = login fixtureEnv emptyStore ⟨none, some "ann@x.com", some "wrong"⟩ :=
  have h := login_invalid_credentials_identical fixtureEnv fixtureEnv emptyStore annStore
    ⟨none, some "ann@x.com", some "wrong"⟩ ⟨none, some "ann@x.com", some "wrong"⟩
    { id := 1, email := "ann@x.com", name := "Ann", password := "$$2a$10$saltpw" }
    (by rfl) (by rfl)
  ⟨h.1, h.2.1, h.2.2.mpr (by rfl)⟩

/-- C5 as stated fails: a request with an empty name (and one with an empty
password), a well-formed unregistered email and nothing missing is answered
201 and its user record is created. -/
theorem register_accepts_empty_name :
    register fixtureEnv emptyStore ⟨some "", some "ann@x.com", some "pw"⟩ =
      (⟨201, [("message", .scalar (.str "User registered successfully")),
              ("user", .object [("id", .num 1), ("name", .str ""),
                                ("email", .str "ann@x.com")])]⟩,
       { users := [{ id := 1, email := "ann@x.com", name := "", password := "$$2a$10$saltpw" }],
         nextId := 2, createCalls := 1 }) ∧
    (register fixtureEnv emptyStore ⟨some "Ann", some "ann@x.com", some ""⟩).1.status = 201 ∧
    (register fixtureEnv emptyStore ⟨some "Ann", some "ann@x.com", some ""⟩).2.users.length = 1 := by
  decide

/-- A new row with a missing field or an ill-formed email is refused by
`User.create` before anything is inserted. -/
theorem create_invalid (env : Env) (store : Store) (v : Credentials)
    (hinvalid : v.name = none ∨ v.email = none ∨ v.password = none ∨
      ∃ e, v.email = some e ∧ env.isEmail e = false) :
    ∃ err, User.create env store v
      = (.error err, { store with createCalls := store.createCalls + 1 }) := by
  obtain ⟨n, e, p⟩ := v
  cases n <;> cases e <;> cases p <;> simp_all [User.create, validationErrors]

/-- C5, amended: a register request whose email fails the email-format
validation, or whose name, email or password is missing, creates no user
record and is not answered with the 201 success. (An empty name or password
is not refused by the model.) -/
theorem register_invalid_input (env : Env) (store : Store) (body : Credentials)
    (hinvalid : body.name = none ∨ body.email = none ∨ body.password = none ∨
      ∃ e, body.email = some e ∧ env.isEmail e = false) :
    (register env store body).2.users = store.users ∧
    (register env store body).2.nextId = store.nextId ∧
    (register env store body).1.status ≠ 201 := by
  obtain ⟨err, hc⟩ := create_invalid env store ⟨body.name, body.email, body.password⟩ hinvalid
  cases hf : User.findOne env store body.email with
  | error e => simp [register, registerTry, hf]
  | ok found =>
    cases found with
    | some u => simp [register, registerTry, hf]
    | none => simp [register, registerTry, hf, hc]

/-- C5 amended, at the ill-formed email `not-an-email`. -/
theorem register_invalid_input_witness :
    (register fixtureEnv emptyStore ⟨some "Ann", some "not-an-email", some "pw"⟩).2.users
      = emptyStore.users ∧
    (register fixtureEnv emptyStore ⟨some "Ann", some "not-an-email", some "pw"⟩).2.nextId
      = emptyStore.nextId ∧
    (register fixtureEnv emptyStore ⟨some "Ann", some "not-an-email", some "pw"⟩).1.status ≠ 201 :=
  register_invalid_input fixtureEnv emptyStore ⟨some "Ann", some "not-an-email", some "pw"⟩
    (Or.inr (Or.inr (Or.inr ⟨"not-an-email", rfl, by decide⟩)))

/-- The status `register` answers an ill-formed email with is 500, the
`catch` branch, with the validation message in the body. -/
theorem register_invalid_email_status :
    (register fixtureEnv emptyStore ⟨some "Ann", some "not-an-email", some "pw"⟩).1 =
      ⟨500, [("message", .scalar (.str "Server error during registration")),
             ("error", .scalar (.str "Validation error: Validation isEmail on email failed"))]⟩ := by
  decide

/-- C6: when the table already holds a user with email `e` (and answers the
lookup), a register request with email `e` is answered 400 with
`{ message: "User already exists" }`; `User.create` is not invoked and the
store, its users included, is unchanged. -/
theorem register_existing_email (env : Env) (store : Store) (body : Credentials)
    (e : String) (u : UserRecord) (hdb : env.dbFault = none) (hemail : body.email = some e)
    (hu : u ∈ store.users) (hue : u.email = e) :
    register env store body =
      (⟨400, [("message", .scalar (.str "User already exists"))]⟩, store) ∧
    (register env store body).2.createCalls = store.createCalls ∧
    (register env store body).2.users = store.users := by
  have hfind : ∃ v, store.users.find? (fun u => decide (u.email = e)) = some v := by
    cases hf : store.users.find? (fun u => decide (u.email = e)) with
    | some v => exact ⟨v, rfl⟩
    | none =>
      rw [List.find?_eq_none] at hf
      exact absurd hue (by simpa using hf u hu)
  obtain ⟨v, hv⟩ := hfind
  have h : register env store body =
      (⟨400, [("message", .scalar (.str "User already exists"))]⟩, store) := by
    simp [register, registerTry, User.findOne, hemail, hdb, hv]
  simp [h]

/-- C6 at a second registration of `ann@x.com`. -/
theorem register_existing_email_witness :
    register fixtureEnv annStore ⟨some "Ann B", some "ann@x.com", some "other"⟩ =
      (⟨400, [("message", .scalar (.str "User already exists"))]⟩, annStore) ∧
    (register fixtureEnv annStore ⟨some "Ann B", some "ann@x.com", some "other"⟩).2.createCalls
      = annStore.createCalls ∧
    (register fixtureEnv annStore ⟨some "Ann B", some "ann@x.com", some "other"⟩).2.users
      = annStore.users :=
  register_existing_email fixtureEnv annStore ⟨some "Ann B", some "ann@x.com", some "other"⟩
    "ann@x.com" { id := 1, email := "ann@x.com", name := "Ann", password := "$$2a$10$saltpw" }
    rfl rfl (by decide) rfl

/-- C7 fails on the code at the empty password: the model accepts it, the
`beforeCreate` hook skips it under `if (user.password)`, and the record is
persisted with the submitted plaintext as its password, although the hash of
the empty password differs from it and the sibling `beforeUpdate` hook does
hash an empty password that changed. -/
theorem create_keeps_empty_password :
    (register fixtureEnv emptyStore ⟨some "Ann", some "ann@x.com", some ""⟩).1.status = 201 ∧
    (User.create fixtureEnv emptyStore ⟨some "Ann", some "ann@x.com", some ""⟩).2.users
      = [{ id := 1, email := "ann@x.com", name := "Ann", password := "" }] ∧
    beforeCreate fixtureEnv "" = "" ∧
    fixtureEnv.bcrypt.hash "" (fixtureEnv.bcrypt.genSalt 10 fixtureEnv.entropy) ≠ "" ∧
    beforeUpdate fixtureEnv true ""
      = fixtureEnv.bcrypt.hash "" (fixtureEnv.bcrypt.genSalt 10 fixtureEnv.entropy) := by
  decide

/-- A record persisted through `User.create` from a non-empty password stores
`bcrypt.hash(password, salt)` with `salt` from the `bcrypt.genSalt(10)` of
that call, which (a hash never being its own plaintext) differs from the
submitted password. -/
theorem create_hashes_password (env : Env) (store after : Store) (v : Credentials)
    (u : UserRecord) (p : String)
    (hcreate : User.create env store v = (.ok u, after))
    (hp : v.password = some p) (hne : p ≠ "") :
    u ∈ after.users ∧
    u.password = env.bcrypt.hash p (env.bcrypt.genSalt 10 env.entropy) ∧
    (env.bcrypt.NoFixedPoint → u.password ≠ p) := by
  obtain ⟨n, e, pw⟩ := v
  simp only at hp
  subst hp
  cases n with
  | none => simp [User.create] at hcreate
  | some n =>
  cases e with
  | none => simp [User.create] at hcreate
  | some e =>
  cases hv : validationErrors env ⟨some n, some e, some p⟩ with
  | cons x xs => simp [User.create, hv] at hcreate
  | nil =>
  cases hd : env.dbFault with
  | some m => simp [User.create, hv, hd] at hcreate
  | none =>
  by_cases hdup : store.users.any (fun u => decide (u.email = e)) = true
  · simp [User.create, hv, hd, hdup] at hcreate
  · simp only [User.create, hv, hd, hdup] at hcreate
    simp only [Bool.false_eq_true, if_false, Prod.mk.injEq, Except.ok.injEq] at hcreate
    obtain ⟨hu, hafter⟩ := hcreate
    subst hu hafter
    have hh : beforeCreate env p = env.bcrypt.hash p (env.bcrypt.genSalt 10 env.entropy) := by
      simp [beforeCreate, hne]
    exact ⟨by simp, hh, fun hB => by simpa [hh] using hB p _⟩

/-- The stand-in `bcryptjs` never returns its plaintext as the hash. -/
theorem fixtureBcrypt_noFixedPoint : fixtureBcrypt.NoFixedPoint := by
  intro plaintext salt h
  have := congrArg String.length h
  simp [fixtureBcrypt] at this
  exact absurd this.1 (by decide)

/-- The password `pw` of the first registration is stored hashed. -/
theorem create_hashes_password_example :
    ({ id := 1, email := "ann@x.com", name := "Ann", password := "$$2a$10$saltpw" } : UserRecord)
        ∈ annStore.users ∧
    "$$2a$10$saltpw" = fixtureEnv.bcrypt.hash "pw" (fixtureEnv.bcrypt.genSalt 10 fixtureEnv.entropy) ∧
    "$$2a$10$saltpw" ≠ "pw" :=
  have h := create_hashes_password fixtureEnv emptyStore annStore
    ⟨some "Ann", some "ann@x.com", some "pw"⟩
    { id := 1, email := "ann@x.com", name := "Ann", password := "$$2a$10$saltpw" } "pw"
    (by rfl) rfl (by decide)
  ⟨h.1, h.2.1, h.2.2 fixtureBcrypt_noFixedPoint⟩

/-- C8 as stated fails: two runs of each handler that differ only in the
message of the storage error thrown are both answered 500, with different
bodies. -/
theorem server_error_body_depends_on_message :
    (login (faultyEnv "ECONNREFUSED") annStore ⟨none, some "ann@x.com", some "pw"⟩).status = 500 ∧
    (login (faultyEnv "ETIMEDOUT") annStore ⟨none, some "ann@x.com", some "pw"⟩).status = 500 ∧
    (login (faultyEnv "ECONNREFUSED") annStore ⟨none, some "ann@x.com", some "pw"⟩).body
      ≠ (login (faultyEnv "ETIMEDOUT") annStore ⟨none, some "ann@x.com", some "pw"⟩).body ∧
    (register (faultyEnv "ECONNREFUSED") annStore ⟨some "Bo", some "bo@x.com", some "pw"⟩).1.body
      ≠ (register (faultyEnv "ETIMEDOUT") annStore ⟨some "Bo", some "bo@x.com", some "pw"⟩).1.body ∧
    (getUsers (faultyEnv "ECONNREFUSED") annStore (some ⟨1, 1000, 4600⟩)).body
      ≠ (getUsers (faultyEnv "ETIMEDOUT") annStore (some ⟨1, 1000, 4600⟩)).body := by
  decide

/-- C8, amended: whenever the `try` block of `register`, `login` or
`getUsers` throws, the response has status 500 and the body
`{ message, error }` whose `message` is the fixed text of that handler and
whose `error` is the message of the thrown error; status and `message` do
not depend on the failure, `error` repeats its message. -/
theorem server_error_response (envR envL envG : Env) (storeR storeL storeG : Store)
    (bodyR bodyL : Credentials) (user : Option JwtPayload) (eR eL eG : JsError)
    (hR : (registerTry envR storeR bodyR).1 = .error eR)
    (hL : loginTry envL storeL bodyL = .error eL)
    (hG : getUsersTry envG storeG user = .error eG) :
    (register envR storeR bodyR).1 =
      ⟨500, [("message", .scalar (.str "Server error during registration")),
             ("error", .scalar (.str eR.message))]⟩ ∧
    login envL storeL bodyL =
      ⟨500, [("message", .scalar (.str "Server error during login")),
             ("error", .scalar (.str eL.message))]⟩ ∧
    getUsers envG storeG user =
      ⟨500, [("message", .scalar (.str "Server error fetching users")),
             ("error", .scalar (.str eG.message))]⟩ := by
  refine ⟨?_, ?_, ?_⟩
  · cases hr : registerTry envR storeR bodyR with
    | mk r after =>
      rw [hr] at hR
      simp only at hR
      subst hR
      simp [register, hr]
  · simp [login, hL]
  · simp [getUsers, hG]

/-- C8 amended, with the database refusing connections. -/
theorem server_error_response_witness :
    (register (faultyEnv "ECONNREFUSED") annStore ⟨some "Bo", some "bo@x.com", some "pw"⟩).1 =
      ⟨500, [("message", .scalar (.str "Server error during registration")),
             ("error", .scalar (.str "ECONNREFUSED"))]⟩ ∧
    login (faultyEnv "ECONNREFUSED") annStore ⟨none, some "ann@x.com", some "pw"⟩ =
      ⟨500, [("message", .scalar (.str "Server error during login")),
             ("error", .scalar (.str "ECONNREFUSED"))]⟩ ∧
    getUsers (faultyEnv "ECONNREFUSED") annStore (some ⟨1, 1000, 4600⟩) =
      ⟨500, [("message", .scalar (.str "Server error fetching users")),
             ("error", .scalar (.str "ECONNREFUSED"))]⟩ :=
  server_error_response (faultyEnv "ECONNREFUSED") (faultyEnv "ECONNREFUSED")
    (faultyEnv "ECONNREFUSED") annStore annStore annStore
    ⟨some "Bo", some "bo@x.com", some "pw"⟩ ⟨none, some "ann@x.com", some "pw"⟩
    (some ⟨1, 1000, 4600⟩) ⟨"ECONNREFUSED"⟩ ⟨"ECONNREFUSED"⟩ ⟨"ECONNREFUSED"⟩
    (by rfl) (by rfl) (by rfl)

/-- C9: a 200 response of `getUsers` has the body `{ users }` with one entry
per stored user, in order, each entry being exactly
`{ id, name, email }` of that user: its keys are `id`, `name`, `email` and
`password` is not among them, whatever the stored password is. And the
response is 200 whenever `req.user` is set and the database answers. -/
theorem getUsers_public_fields (env : Env) (store : Store) (user : Option JwtPayload) :
    ((getUsers env store user).status = 200 →
      ∃ entries : List Row,
        (getUsers env store user).body = [("users", .rows entries)] ∧
        entries = store.users.map
          (fun u => [("id", .num u.id), ("name", .str u.name), ("email", .str u.email)]) ∧
        entries.length = store.users.length ∧
        ∀ entry ∈ entries,
          entry.keys = ["id", "name", "email"] ∧ "password" ∉ entry.keys) ∧
    (user.isSome = true → env.dbFault = none → (getUsers env store user).status = 200) := by
  have hproj : ∀ u : UserRecord,
      (["id", "name", "email"].filterMap fun a => (u.get a).map fun v => (a, v))
        = [("id", .num u.id), ("name", .str u.name), ("email", .str u.email)] := by
    intro u
    simp [List.filterMap, UserRecord.get]
  cases user with
  | none => simp [getUsers, getUsersTry]
  | some payload =>
    cases hd : env.dbFault with
    | some m => simp [getUsers, getUsersTry, User.findAll, hd]
    | none =>
      simp only [getUsers, getUsersTry, User.findAll, hd, hproj]
      refine ⟨fun _ => ⟨_, rfl, rfl, by simp, ?_⟩, by simp⟩
      intro entry hentry
      obtain ⟨u, _, rfl⟩ := List.mem_map.mp hentry
      exact ⟨rfl, by simp [Row.keys]⟩

/-- The token in a 200 response of `login` for the user the lookup found is
the one `jwt.sign({ id: user.id }, JWT_SECRET, { expiresIn: "1h" })` returned. -/
theorem login_token_signed (env : Env) (store : Store) (body : Credentials) (u : UserRecord)
    (tok : String) (huser : User.findOne env store body.email = .ok (some u))
    (hlogin : login env store body =
      ⟨200, [("message", .scalar (.str "Logged in successfully")),
             ("token", .scalar (.str tok))]⟩) :
    env.jwt.sign u.id env.JWT_SECRET "1h" env.now = .ok tok := by
  simp only [login, loginTry, huser] at hlogin
  cases hc : env.bcrypt.compare body.password u.password with
  | error e => simp [hc] at hlogin
  | ok b =>
    cases b with
    | false => simp [hc] at hlogin
    | true =>
      cases hs : env.jwt.sign u.id env.JWT_SECRET "1h" env.now with
      | error e => simp [hc, hs] at hlogin
      | ok token =>
        simp [hc, hs] at hlogin
        rw [hlogin]

/-- C10: for a user found by the lookup and the token `login` issued for
them (signed over `{ id: user.id }` with a one hour expiry), presenting
`Bearer <token>` to `authenticateToken` under the same secret, at any time
from issuance up to the expiry, writes no response, calls `next` exactly once
and sets `req.user` to a payload whose `id` is the id of that user. The
`jsonwebtoken` contract `JwtLib.Sound` is assumed. -/
theorem login_token_authenticates (env : Env) (store : Store) (body : Credentials)
    (u : UserRecord) (tok : String) (t : Nat) (hJ : env.jwt.Sound)
    (huser : User.findOne env store body.email = .ok (some u))
    (hlogin : login env store body =
      ⟨200, [("message", .scalar (.str "Logged in successfully")),
             ("token", .scalar (.str tok))]⟩)
    (hfrom : env.now ≤ t) (hbefore : t < env.now + 3600) :
    ∃ p, authenticateToken { env with now := t } (some ("Bearer " ++ tok))
          = { response := none, nextCalls := 1, user := some p } ∧
      p.id = u.id := by
  have hsign := login_token_signed env store body u tok huser hlogin
  obtain ⟨hnospace, hround⟩ := hJ u.id env.JWT_SECRET env.now tok hsign
  obtain ⟨p, hverify, hid⟩ := hround t hfrom hbefore
  have hheader : "Bearer " ++ tok = "Bearer" ++ " " ++ tok ++ afterToken none := by
    have : ("Bearer" : String) ++ " " = "Bearer " := by decide
    simp [afterToken, this]
  have hne : "Bearer " ++ tok ≠ "" := by
    intro h
    have := congrArg String.length h
    simp at this
    exact absurd this.1 (by decide)
  have htok : extractToken (some ("Bearer " ++ tok)) = some tok := by
    simp only [extractToken, if_neg hne]
    rw [hheader]
    exact split_scheme_token "Bearer" tok none (by decide) hnospace
  exact ⟨p, by simp [authenticateToken, htok, hverify], hid⟩

/-- The stand-in `jsonwebtoken` satisfies the contract. -/
theorem fixtureJwt_sound : fixtureJwt.Sound := by
  intro id secret iat tok h
  simp only [fixtureJwt] at h
  split at h
  · rename_i hc
    obtain ⟨hid, hsecret, -, hiat⟩ := hc
    simp only [Except.ok.injEq] at h
    subst h hid hsecret hiat
    refine ⟨by decide, fun t _ ht => ⟨⟨1, 1000, 4600⟩, ?_, rfl⟩⟩
    have : t < 4600 := by omega
    simp [fixtureJwt, this]
  · simp at h

/-- C10 for the user of `annStore`, 59 minutes after the login. -/
theorem login_token_authenticates_witness :
    ∃ p, authenticateToken { fixtureEnv with now := 4540 } (some ("Bearer " ++ "h.p1.sig"))
          = { response := none, nextCalls := 1, user := some p } ∧
      p.id = 1 :=
  login_token_authenticates fixtureEnv annStore ⟨none, some "ann@x.com", some "pw"⟩
    { id := 1, email := "ann@x.com", name := "Ann", password := "$$2a$10$saltpw" }
    "h.p1.sig" 4540 fixtureJwt_sound (by rfl) (by decide) (by decide) (by decide)

end SchoolApi
